import Mathlib

/-!
Verification development for the FreeSpot frontend (reydstry/FreeSpot).

This file shallowly embeds the pieces of the repository that the checked
claims are about:

* the per-floor WebSocket manager of `src/frontend/src/hooks/useWebSocket.js`
  (connect guard, exponential backoff on close, set reconciliation,
  reconnect timers);
* the inline reconnect loop of
  `src/frontend/src/components/TablePage/RealtimeDetection.jsx`;
* the backend connection monitor of
  `src/frontend/src/hooks/useBackendConnection.js`;
* the REST client error paths of `src/frontend/src/services/api.js`;
* the canvas interaction hook `useCanvasInteractions`
  (drag / resize / rotate / draw handlers and their persistence effects).

JavaScript numbers are modelled as `Nat` where the source only ever holds
non-negative integers (ids, counters, millisecond delays) and as `Rat`
for canvas geometry.  Trigonometric primitives (`Math.atan2`, `Math.cos`,
`Math.sin`) are abstracted as function parameters, since the claims do not
depend on their values.  Browser side effects (socket sends, REST calls)
are reified as explicit action lists returned by the embedded handlers.
-/

set_option linter.unusedVariables false

namespace FreeSpot

/-! ### Constants (src/unnamed/part_001, `frontend/src/constants`) -/

def WS_MAX_RECONNECT_ATTEMPTS : Nat := 5
def WS_INITIAL_RECONNECT_DELAY : Nat := 5000
def WS_MAX_RECONNECT_DELAY : Nat := 60000

/-- Constants at the top of `RealtimeDetection.jsx`. -/
def MAX_RECONNECT_ATTEMPTS : Nat := 5
def BASE_RECONNECT_DELAY : Nat := 3000

/-! ### WebSocket manager state (useWebSocket.js) -/

/-- Browser `WebSocket.readyState` values. -/
inductive ReadyState
  | connecting
  | opened
  | closing
  | closed
deriving DecidableEq, Repr

/-- A browser WebSocket handle as the manager sees it: an identity (so that
"the same socket" / "a new socket" is expressible), its ready state, and the
`validFloorIds` set captured by the `onclose`/`onmessage` closures installed
in `connectToFloor` (JS closes over the argument, not over the current set). -/
structure Socket where
  sid : Nat
  readyState : ReadyState
  capturedSet : List Nat
deriving DecidableEq, Repr

/-- A pending reconnect timer as stored in `wsReconnectTimeoutsRef`: the
callback closes over the same captured `validFloorIds`, and the delay it was
scheduled with is recorded for the backoff claims. -/
structure PendingTimer where
  validSet : List Nat
  delay : Nat
deriving DecidableEq, Repr

/-- The mutable refs of the `useWebSocket` hook.  JS objects keyed by floor id
become functions from floor ids; a missing key is `none` (`undefined`).
`isConnectingRef.current[floorId]` is read with JS truthiness, so a missing
key and `false` coincide and a plain `Bool`-valued map suffices.
`nextSid` supplies fresh socket identities for `new WebSocket(...)`. -/
structure WsManagerState where
  conns : Nat → Option Socket
  attempts : Nat → Option Nat
  timers : Nat → Option PendingTimer
  connectingFlag : Nat → Bool
  unmounted : Bool
  nextSid : Nat

/-- Pointwise update of a floor-id-keyed map. -/
def upd {α : Type} (f : Nat → α) (k : Nat) (v : α) : Nat → α :=
  fun n => if n = k then v else f n

/-- The delay computed in `ws.onclose` of `useWebSocket.js` for reconnect
attempt `n`: `Math.min(WS_INITIAL_RECONNECT_DELAY * Math.pow(2, n - 1),
WS_MAX_RECONNECT_DELAY)`. -/
def wsDelay (n : Nat) : Nat :=
  min (WS_INITIAL_RECONNECT_DELAY * 2 ^ (n - 1)) WS_MAX_RECONNECT_DELAY

/-- The delay computed in `ws.onclose` of `RealtimeDetection.jsx` for
reconnect attempt `n`: `BASE_RECONNECT_DELAY * reconnectAttemptsRef.current`
(the counter has just been incremented to `n`). -/
def rdDelay (n : Nat) : Nat := BASE_RECONNECT_DELAY * n

/-- The backoff formula asserted by the specification:
`delay(N) = min(base * 2^(N-1), cap)`. -/
def specDelay (base cap n : Nat) : Nat := min (base * 2 ^ (n - 1)) cap

/-- The duplicate guard of `connectToFloor`: an existing socket whose
`readyState` is OPEN or CONNECTING. -/
def isOpenOrConnecting (o : Option Socket) : Bool :=
  match o with
  | some ws => ws.readyState == ReadyState.opened ||
               ws.readyState == ReadyState.connecting
  | none => false

/-- Function `connectToFloor(floorId, validFloorIds)` from `useWebSocket.js`, success
path of the `new WebSocket` constructor (the `catch` branch only resets the
per-floor flags when construction itself throws).  Guards, in source order:
unmounted, floor not in the valid set, per-floor connecting flag, an existing
socket in OPEN or CONNECTING state, and the retry-attempt cap. -/
def connectToFloor (st : WsManagerState) (floorId : Nat) (validSet : List Nat) :
    WsManagerState :=
  if st.unmounted then st
  else if ¬ validSet.contains floorId then st
  else if st.connectingFlag floorId then st
  else if isOpenOrConnecting (st.conns floorId) then st
  else if WS_MAX_RECONNECT_ATTEMPTS ≤ (st.attempts floorId).getD 0 then st
  else
    { st with
      connectingFlag := upd st.connectingFlag floorId true
      conns := upd st.conns floorId
        (some ⟨st.nextSid, ReadyState.connecting, validSet⟩)
      nextSid := st.nextSid + 1 }

/-- Handler `ws.onopen` from `useWebSocket.js`, run when the socket for `floorId`
transitions to OPEN: if unmounted the socket is closed again, otherwise the
retry counter is reset to 0 and the connecting flag cleared.  The ready-state
transition of the stored socket handle itself is part of the event. -/
def onOpen (st : WsManagerState) (floorId : Nat) : WsManagerState :=
  match st.conns floorId with
  | none => st
  | some ws =>
    if st.unmounted then
      let ws' := { ws with readyState := ReadyState.closing }
      { st with conns := upd st.conns floorId (some ws') }
    else
      let ws' := { ws with readyState := ReadyState.opened }
      { st with
        conns := upd st.conns floorId (some ws')
        attempts := upd st.attempts floorId (some 0)
        connectingFlag := upd st.connectingFlag floorId false }

/-- Handler `ws.onclose` from `useWebSocket.js`.  Here `capturedSet` is the
`validFloorIds` the handler's closure captured when `connectToFloor` created
the socket (see `Socket.capturedSet`); it is *not* re-read from the current
floor set.  Deletes the stored handle, clears the connecting flag, and — when
not unmounted and the floor is in the captured set — increments the retry
counter and, below the cap, overwrites the floor's reconnect timer with one
scheduled after `wsDelay`. -/
def onClose (st : WsManagerState) (floorId : Nat) (capturedSet : List Nat) :
    WsManagerState :=
  let st1 : WsManagerState :=
    { st with
      conns := upd st.conns floorId none
      connectingFlag := upd st.connectingFlag floorId false }
  if st1.unmounted then st1
  else if ¬ capturedSet.contains floorId then st1
  else
    let a := (st1.attempts floorId).getD 0 + 1
    let st2 : WsManagerState :=
      { st1 with attempts := upd st1.attempts floorId (some a) }
    if a < WS_MAX_RECONNECT_ATTEMPTS then
      { st2 with timers := upd st2.timers floorId (some ⟨capturedSet, wsDelay a⟩) }
    else st2

/-- The `setTimeout` callback stored by `onClose`: if the hook is not
unmounted, it deletes its own timer entry and calls `connectToFloor` with the
captured valid set. -/
def timerFire (st : WsManagerState) (floorId : Nat) : WsManagerState :=
  match st.timers floorId with
  | none => st
  | some t =>
    if st.unmounted then st
    else
      connectToFloor
        { st with timers := upd st.timers floorId none } floorId t.validSet

/-- One iteration of the close branch of the reconciliation effect in
`useWebSocket.js` (lines 158–179), for a single key of
`wsConnectionsRef.current`: floors still in the new valid set are skipped;
for stale floors the socket is closed if OPEN or CONNECTING and every piece
of per-floor bookkeeping (connection handle, connecting flag, retry counter,
pending timer) is deleted. -/
def reconcileCloseFloor (st : WsManagerState) (validSet : List Nat)
    (floorId : Nat) : WsManagerState :=
  if validSet.contains floorId then st
  else
    { st with
      conns := upd st.conns floorId none
      connectingFlag := upd st.connectingFlag floorId false
      attempts := upd st.attempts floorId none
      timers := upd st.timers floorId none }

/-- The close branch of the reconciliation effect over the keys of
`wsConnectionsRef.current`. -/
def reconcileClose (st : WsManagerState) (validSet : List Nat)
    (keys : List Nat) : WsManagerState :=
  keys.foldl (fun s k => reconcileCloseFloor s validSet k) st

/-- The per-floor initialisation in the stagger branch of the reconciliation
effect: `if (wsReconnectAttemptsRef.current[floor.id] === undefined)
wsReconnectAttemptsRef.current[floor.id] = 0`. -/
def reconcileInitFloor (st : WsManagerState) (floorId : Nat) : WsManagerState :=
  match st.attempts floorId with
  | some _ => st
  | none => { st with attempts := upd st.attempts floorId (some 0) }

/-- The staggered `setTimeout(..., index * 100)` callback of the
reconciliation effect: when it fires and the hook is not unmounted, it calls
`connectToFloor` with the valid set computed by that effect run. -/
def staggerFire (st : WsManagerState) (floorId : Nat) (validSet : List Nat) :
    WsManagerState :=
  if st.unmounted then st else connectToFloor st floorId validSet

/-! ### Incoming detection messages -/

/-- One entry of a `table_status` array in a detection message. -/
structure TableStatusEntry where
  tid : Nat
  tname : String
  occupied : Bool
deriving DecidableEq, Repr

/-- A successfully `JSON.parse`d detection-stream frame, restricted to the
fields the handlers inspect.  `none` models an absent (or `null`, hence
falsy) field; an empty `table_status` array is `some []` and is truthy in
JS, exactly as `if (data.table_status)` treats it.  Malformed JSON never
reaches the handlers (the surrounding `try` logs and drops it). -/
structure WsMessage where
  mtype : Option String
  mstatus : Option String
  merror : Option String
  tableStatus : Option (List TableStatusEntry)
deriving DecidableEq, Repr

/-- Observable effects of the `useWebSocket.js` message handler:
a `ws.send(JSON.stringify({type:'pong'}))` on the same socket, or a call of
the caller-supplied `onMessage(data, floorId)`. -/
inductive WsAction
  | sendPong
  | forward (msg : WsMessage) (floorId : Nat)
deriving DecidableEq, Repr

/-- Handler `ws.onmessage` from `useWebSocket.js` (lines 84–102), for a parsed
message.  `sockOpen` is `ws.readyState === WebSocket.OPEN` at reply time.
A `{type:'ping'}` frame is answered with one pong (only if the socket is
still open) and handled no further; every other parsed message is passed to
the caller-supplied handler together with the floor id. -/
def wsOnMessage (sockOpen : Bool) (msg : WsMessage) (floorId : Nat) :
    List WsAction :=
  if msg.mtype = some "ping" then
    if sockOpen then [WsAction.sendPong] else []
  else
    [WsAction.forward msg floorId]

/-- Observable effects of the `RealtimeDetection.jsx` message handler: UI
state updates, the forward to `onDetectionUpdate`, and (for completeness)
socket sends — the handler contains no `ws.send` call at all. -/
inductive RdAction
  | setStatusMessage (s : String)
  | setIsDetecting (b : Bool)
  | setErr (s : String)
  | setConnectionStatus (s : String)
  | setDetectionData (msg : WsMessage)
  | forwardDetection (msg : WsMessage)
  | wsSend (payload : String)
deriving DecidableEq, Repr

/-- Handler `ws.onmessage` from `RealtimeDetection.jsx` (lines 187–273), for a
parsed message: `type:'connected'` updates status text and returns;
`type:'pong'`/`type:'ping'` only log the heartbeat and return (no reply is
sent); an `error` field updates error state and returns; otherwise a
`status` of `'detecting'`/`'connecting'` updates status text, and a message
carrying `table_status` is stored and forwarded to `onDetectionUpdate`. -/
def rdOnMessage (msg : WsMessage) : List RdAction :=
  if msg.mtype = some "connected" then
    [RdAction.setStatusMessage "connected", RdAction.setIsDetecting true]
  else if msg.mtype = some "pong" ∨ msg.mtype = some "ping" then
    []
  else
    match msg.merror with
    | some e =>
      [RdAction.setErr e, RdAction.setStatusMessage e] ++
        (if msg.mstatus = some "error" then
          [RdAction.setConnectionStatus "error"] else [])
    | none =>
      (if msg.mstatus = some "detecting" then
        [RdAction.setStatusMessage "detecting"]
       else if msg.mstatus = some "connecting" then
        [RdAction.setStatusMessage "connecting"]
       else []) ++
      (match msg.tableStatus with
       | some _ =>
         [RdAction.setDetectionData msg, RdAction.setConnectionStatus "connected",
          RdAction.forwardDetection msg]
       | none => [])

/-- Handler `ws.onclose` from `RealtimeDetection.jsx` (lines 291–320): under the
attempt cap, the counter is incremented and a reconnect is scheduled after
`rdDelay`; at the cap, detection stops.  Returns the new attempt counter and
the scheduled delay, if any. -/
def rdOnClose (attempts : Nat) : Nat × Option Nat :=
  if attempts < MAX_RECONNECT_ATTEMPTS then
    (attempts + 1, some (rdDelay (attempts + 1)))
  else
    (attempts, none)

/-! ### Backend connection monitor (useBackendConnection.js) -/

/-- The state of `useBackendConnection`: the `isConnected` React state, the
`wasConnectedRef` transition guard, the retry counter, and the list of
callbacks registered through `onConnect` (represented by ids, in
registration order — `push` appends). -/
structure BackendConnState where
  isConnected : Bool
  wasConnected : Bool
  retryCount : Nat
  callbacks : List Nat
deriving DecidableEq, Repr

/-- Function `checkConnection()` from `useBackendConnection.js` (lines 25–60), given
the probe outcome.  `healthAPI.check` resolves to a boolean and never
rejects (it catches network errors and returns `false`), so the `catch`
branch of `checkConnection` is unreachable; its body is identical to the
unhealthy branch in any case.  Returns the new state together with the list
of callbacks invoked, in order (each invocation is individually wrapped in
`try`/`catch`, so one callback's failure does not skip the rest). -/
def checkConnection (st : BackendConnState) (healthy : Bool) :
    BackendConnState × List Nat :=
  if healthy then
    let wasDisconnected := ¬ st.wasConnected
    ({ st with isConnected := true, retryCount := 0, wasConnected := true },
     if wasDisconnected then st.callbacks else [])
  else
    ({ st with isConnected := false, wasConnected := false,
               retryCount := st.retryCount + 1 }, [])

/-- Function `onConnect(callback)` from `useBackendConnection.js`: appends the
callback to the registration list. -/
def onConnect (st : BackendConnState) (cb : Nat) : BackendConnState :=
  { st with callbacks := st.callbacks ++ [cb] }

/-! ### REST client error paths (services/api.js) -/

/-- A `fetch` response as the REST client inspects it: `response.ok`,
`response.status`, and the `detail` field of the parsed error body
(`none` when the body is not JSON or has no `detail`; `some ""` is falsy
under the source's `errorData.detail || ...`). -/
structure ApiResponse where
  ok : Bool
  status : Nat
  detail : Option String
deriving DecidableEq, Repr

/-- JS `a || b` for an optional string: a missing, `null` or empty string
falls through to the fallback. -/
def jsOrElse (a : Option String) (b : String) : String :=
  match a with
  | some s => if s = "" then b else s
  | none => b

/-- The error raised by `floorsAPI.create` on a non-ok response:
`throw new Error('Failed to create floor')` — a fixed message. -/
def floorsCreateError (r : ApiResponse) : Option String :=
  if r.ok then none else some "Failed to create floor"

/-- The error raised by `floorsAPI.delete` on a non-ok response. -/
def floorsDeleteError (r : ApiResponse) : Option String :=
  if r.ok then none else some "Failed to delete floor"

/-- The error raised by `tablesAPI.create` on a non-ok response:
the server `detail` when present and truthy, else a generic message
carrying the numeric status code. -/
def tablesCreateError (r : ApiResponse) : Option String :=
  if r.ok then none
  else some (jsOrElse r.detail
    ("Failed to create table (" ++ toString r.status ++ ")"))

/-- The error raised by `tablesAPI.update` on a non-ok response. -/
def tablesUpdateError (r : ApiResponse) : Option String :=
  if r.ok then none else some "Failed to update table"

/-! ### Canvas interactions (useCanvasInteractions, src/unnamed/part_003)

Canvas geometry uses JS doubles; they are modelled by `Rat`.  `Math.atan2`,
`Math.cos` and `Math.sin` are taken as function parameters, since no claim
depends on their values. -/

/-- The double value of `Math.PI * 2`, used by the rotation-normalisation
loops. -/
def jsTwoPi : Rat := 6.283185307179586

/-- A table as held in `localTables`: the fields `useCanvasInteractions`
reads and writes. -/
structure CTable where
  id : Nat
  cname : String
  floor : Nat
  cstatus : String
  capacity : Nat
  coords : Option (Rat × Rat × Rat × Rat)
  rotation : Option Rat
deriving DecidableEq, Repr

/-- The `currentRect` drawing state: `{x, y, width, height}`. -/
structure Rect where
  x : Rat
  y : Rat
  width : Rat
  height : Rat
deriving DecidableEq, Repr

/-- The `dragStart` object.  `handleCanvasMouseDown` stores one of three
shapes: `{x, y, origRotation, centerX, centerY}` for rotation,
`{x, y, origCoords, rotation, centerX, centerY}` for resizing, and `{x, y}`
for dragging; absent fields are `none`.  Each interaction flag is set
together with the matching shape, so a branch never reads an absent field. -/
structure DragStart where
  x : Rat
  y : Rat
  origRotation : Option Rat
  origCoords : Option (Rat × Rat × Rat × Rat)
  rotation : Option Rat
  centerX : Option Rat
  centerY : Option Rat
deriving DecidableEq, Repr

/-- The React state of `useCanvasInteractions`. -/
structure CanvasState where
  selectedTable : Option CTable
  isDragging : Bool
  isResizing : Bool
  isRotating : Bool
  resizeHandle : Option String
  dragStart : Option DragStart
  isDrawing : Bool
  currentRect : Option Rect
  localTables : List CTable
deriving DecidableEq, Repr

/-- Persistence effects of the canvas handlers: `onUpdateTable(id, updates)`
(the REST `PUT /tables/id` issued by the parent) and `onAddTable(newTable)`
(the REST `POST /tables`).  The `updates` object carries `coords` when the
table has them and `rotation` when it is not `undefined`. -/
inductive CanvasEffect
  | updateTable (id : Nat) (coords : Option (Rat × Rat × Rat × Rat))
      (rotation : Option Rat)
  | addTable (t : CTable)
deriving DecidableEq, Repr

/-- Rotation-normalisation loop `while (newRotation < 0) newRotation +=
Math.PI * 2` of the rotating branch, with the loop constant `p` abstracted
(`p = jsTwoPi` at the call site; the guard `0 < p` makes the definition
total). -/
def normUp (p r : Rat) : Rat :=
  if h : 0 < p ∧ r < 0 then normUp p (r + p) else r
termination_by (⌈-r / p⌉).toNat
decreasing_by
  have hp := h.1
  have hr := h.2
  have hkey : -(r + p) / p = -r / p - 1 := by
    field_simp
    ring
  have hpos : 0 < ⌈-r / p⌉ := Int.ceil_pos.mpr (div_pos (neg_pos.mpr hr) hp)
  rw [hkey, Int.ceil_sub_one]
  omega

/-- Rotation-normalisation loop `while (newRotation >= Math.PI * 2)
newRotation -= Math.PI * 2`, with the loop constant abstracted as in
`normUp`. -/
def normDown (p r : Rat) : Rat :=
  if h : 0 < p ∧ p ≤ r then normDown p (r - p) else r
termination_by (⌊r / p⌋).toNat
decreasing_by
  have hp := h.1
  have hr := h.2
  have hkey : (r - p) / p = r / p - 1 := by
    field_simp
  have h1 : ((1 : Int) : Rat) ≤ r / p := by
    exact_mod_cast (one_le_div hp).mpr hr
  have hpos : (1 : Int) ≤ ⌊r / p⌋ := Int.le_floor.mpr h1
  rw [hkey, Int.floor_sub_one]
  omega

/-- Normalisation of a fresh rotation value as performed by the rotating
branch of `handleCanvasMouseMove`: both `while` loops in sequence. -/
def normalizeRotation (p r : Rat) : Rat := normDown p (normUp p r)

/-- The new rotation computed by the rotating branch of
`handleCanvasMouseMove`: `origRotation + (angle - startAngle)`, then
normalised into `[0, 2π)`. -/
def newRotationOf (origRotation angle startAngle : Rat) : Rat :=
  normalizeRotation jsTwoPi (origRotation + (angle - startAngle))

/-- Guard of the rotating branch of `handleCanvasMouseMove`:
`isRotating && selectedTable && dragStart`. -/
def rotCond (st : CanvasState) : Bool :=
  st.isRotating && st.selectedTable.isSome && st.dragStart.isSome

/-- Guard of the resizing branch:
`isResizing && selectedTable && dragStart && dragStart.origCoords`. -/
def resCond (st : CanvasState) : Bool :=
  st.isResizing && st.selectedTable.isSome &&
    (match st.dragStart with
     | some ds => ds.origCoords.isSome
     | none => false)

/-- Guard of the dragging branch: `isDragging && selectedTable && dragStart`. -/
def dragCond (st : CanvasState) : Bool :=
  st.isDragging && st.selectedTable.isSome && st.dragStart.isSome

/-- Guard of the drawing branch: `isDrawing && currentRect`. -/
def drawCond (st : CanvasState) : Bool :=
  st.isDrawing && st.currentRect.isSome

/-- Which floor the table list is filtered to; `all` disables canvas
editing. -/
inductive FilterFloor
  | all
  | lvl (n : Nat)
deriving DecidableEq, Repr

/-- Function `handleCanvasMouseMove` from `useCanvasInteractions`
(src/unnamed/part_003, lines 144–343), for already canvas-scaled pointer
coordinates `actualX`/`actualY`.  `jsAtan2`, `jsCos` and `jsSin` stand for
the `Math` primitives.  Returns the new state and the persistence effects —
the handler only ever calls `setLocalTables` / `setDragStart` /
`setCurrentRect` (and sets the hover cursor style, which touches neither
React state nor the backend and is omitted), so the effect list is empty on
every path. -/
def handleCanvasMouseMove (jsAtan2 : Rat → Rat → Rat) (jsCos jsSin : Rat → Rat)
    (filterFloor : FilterFloor) (canvasPresent : Bool) (st : CanvasState)
    (actualX actualY : Rat) : CanvasState × List CanvasEffect :=
  if filterFloor = FilterFloor.all then (st, [])
  else if ¬ canvasPresent then (st, [])
  else if rotCond st then
    match st.selectedTable, st.dragStart with
    | some sel, some ds =>
      let cX := ds.centerX.getD 0
      let cY := ds.centerY.getD 0
      let dx := actualX - cX
      let dy := actualY - cY
      let angle := jsAtan2 dy dx
      let startDx := ds.x - cX
      let startDy := ds.y - cY
      let startAngle := jsAtan2 startDy startDx
      let newRotation := newRotationOf (ds.origRotation.getD 0) angle startAngle
      ({ st with localTables := st.localTables.map (fun t =>
          if t.id = sel.id then { t with rotation := some newRotation } else t) },
       [])
    | _, _ => (st, [])
  else if resCond st then
    match st.selectedTable, st.dragStart with
    | some sel, some ds =>
      match ds.origCoords with
      | some (origX1, origY1, origX2, origY2) =>
        let rotation := ds.rotation.getD 0
        let cX := ds.centerX.getD 0
        let cY := ds.centerY.getD 0
        let dx := actualX - cX
        let dy := actualY - cY
        let c := jsCos (-rotation)
        let s := jsSin (-rotation)
        let localX := cX + dx * c - dy * s
        let localY := cY + dx * s + dy * c
        let newCoords :=
          match st.resizeHandle with
          | some "tl" => (localX, localY, origX2, origY2)
          | some "tr" => (origX1, localY, localX, origY2)
          | some "bl" => (localX, origY1, origX2, localY)
          | some "br" => (origX1, origY1, localX, localY)
          | _ => (origX1, origY1, origX2, origY2)
        let minSize : Rat := 30
        let (nX1, nY1, nX2, nY2) := newCoords
        let (nX1, nX2) := if nX2 < nX1 then (nX2, nX1) else (nX1, nX2)
        let (nY1, nY2) := if nY2 < nY1 then (nY2, nY1) else (nY1, nY2)
        if minSize ≤ nX2 - nX1 ∧ minSize ≤ nY2 - nY1 then
          ({ st with localTables := st.localTables.map (fun t =>
              if t.id = sel.id then { t with coords := some (nX1, nY1, nX2, nY2) }
              else t) },
           [])
        else (st, [])
      | none => (st, [])
    | _, _ => (st, [])
  else if dragCond st then
    match st.selectedTable, st.dragStart with
    | some sel, some ds =>
      let dx := actualX - ds.x
      let dy := actualY - ds.y
      ({ st with
          localTables := st.localTables.map (fun t =>
            if t.id = sel.id then
              match t.coords with
              | some (x1, y1, x2, y2) =>
                { t with coords := some (x1 + dx, y1 + dy, x2 + dx, y2 + dy) }
              | none => t
            else t)
          dragStart := some ⟨actualX, actualY, none, none, none, none, none⟩ },
       [])
    | _, _ => (st, [])
  else if drawCond st then
    match st.currentRect with
    | some r =>
      let r' := { r with width := actualX - r.x, height := actualY - r.y }
      ({ st with currentRect := some r' }, [])
    | none => (st, [])
  else (st, [])

/-- The drawing branch of `handleCanvasMouseUp`: creates a new table
through `onAddTable` only when the drawn rectangle exceeds 20×20 (the
`.then` continuation that appends the REST result to `localTables` runs
asynchronously and is not part of this handler's synchronous step), and
clears `currentRect`. -/
def mouseUpDrawStep (filterFloor : FilterFloor) (st : CanvasState) :
    CanvasState × List CanvasEffect :=
  if st.isDrawing ∧ st.currentRect.isSome ∧ filterFloor ≠ FilterFloor.all then
    match st.currentRect, filterFloor with
    | some r, FilterFloor.lvl fl =>
      let x1 := min r.x (r.x + r.width)
      let y1 := min r.y (r.y + r.height)
      let x2 := max r.x (r.x + r.width)
      let y2 := max r.y (r.y + r.height)
      let effs :=
        if 20 < |x2 - x1| ∧ 20 < |y2 - y1| then
          let floorTables := st.localTables.filter (fun t => t.floor = fl)
          let tableNumber := floorTables.length + 1
          [CanvasEffect.addTable
            { id := 0
              cname := "Meja " ++ toString tableNumber
              cstatus := "available"
              capacity := 4
              floor := fl
              coords := some ((round x1 : Int), (round y1 : Int),
                              (round x2 : Int), (round y2 : Int))
              rotation := some 0 }]
        else []
      ({ st with currentRect := none }, effs)
    | _, _ => (st, [])
  else (st, [])

/-- The persist branch of `handleCanvasMouseUp`: when a drag, resize or
rotate interaction ends with a selected table, the table's current
`localTables` entry is looked up and its coords/rotation are pushed to the
parent through `onUpdateTable` (one REST update). -/
def mouseUpPersistStep (st1 : CanvasState) : CanvasState × List CanvasEffect :=
  if (st1.isDragging ∨ st1.isResizing ∨ st1.isRotating) ∧
      st1.selectedTable.isSome then
    match st1.selectedTable with
    | some sel =>
      match st1.localTables.find? (fun t => t.id = sel.id) with
      | some updatedTable =>
        ({ st1 with selectedTable := some updatedTable },
         [CanvasEffect.updateTable sel.id updatedTable.coords
            updatedTable.rotation])
      | none => (st1, [])
    | none => (st1, [])
  else (st1, [])

/-- Function `handleCanvasMouseUp` from `useCanvasInteractions`
(src/unnamed/part_003, lines 345–408): the drawing branch
(`mouseUpDrawStep`), then the persist branch (`mouseUpPersistStep`), then
all interaction flags are cleared. -/
def handleCanvasMouseUp (filterFloor : FilterFloor) (st : CanvasState) :
    CanvasState × List CanvasEffect :=
  let d := mouseUpDrawStep filterFloor st
  let p := mouseUpPersistStep d.1
  ({ p.1 with
      isDrawing := false
      isDragging := false
      isResizing := false
      isRotating := false
      resizeHandle := none
      dragStart := none },
   d.2 ++ p.2)

/-- Counts the `updateTable` persistence effects in an effect list. -/
def countUpdates (effs : List CanvasEffect) : Nat :=
  (effs.filter (fun e =>
    match e with
    | CanvasEffect.updateTable _ _ _ => true
    | _ => false)).length

/-! ### Concrete states used to instantiate the theorems -/

/-- A manager state with no connections and no bookkeeping. -/
def emptyWs : WsManagerState :=
  ⟨fun _ => none, fun _ => none, fun _ => none, fun _ => false, false, 0⟩

/-- An open socket for floor 1 created while the floor set was `[1, 2]`. -/
def sock1 : Socket := ⟨1, ReadyState.opened, [1, 2]⟩

/-- An open socket for floor 2 created while the floor set was `[1, 2]`. -/
def sock2 : Socket := ⟨2, ReadyState.opened, [1, 2]⟩

/-- Both floors 1 and 2 connected and open, no pending timers. -/
def stBoth : WsManagerState :=
  { conns := fun n => if n = 1 then some sock1 else if n = 2 then some sock2 else none
    attempts := fun n => if n = 1 ∨ n = 2 then some 0 else none
    timers := fun _ => none
    connectingFlag := fun _ => false
    unmounted := false
    nextSid := 3 }

/-- The reconciliation effect runs after the floor set shrinks from
`[1, 2]` to `[1]`; the keys of `wsConnectionsRef.current` are `[1, 2]`. -/
def stAfterRemove : WsManagerState := reconcileClose stBoth [1] [1, 2]

/-- The asynchronous close event of floor 2's socket then fires; its
handler consults the valid set captured at connect time. -/
def stAfterClose : WsManagerState := onClose stAfterRemove 2 sock2.capturedSet

/-- The reconnect timer stored by that close handler fires. -/
def stAfterTimer : WsManagerState := timerFire stAfterClose 2

/-- A manager state whose floor 2 has exhausted its five reconnect
attempts. -/
def stExhausted : WsManagerState :=
  { emptyWs with
    attempts := upd emptyWs.attempts 2 (some 5)
    conns := upd emptyWs.conns 1 (some sock1)
    nextSid := 4 }

/-- A detection frame `\x7b"type":"connected"\x7d`. -/
def connectedMsg : WsMessage := ⟨some "connected", none, none, none⟩

/-- A heartbeat frame `\x7b"type":"ping"\x7d`. -/
def pingMsg : WsMessage := ⟨some "ping", none, none, none⟩

/-- A failed response carrying a server detail message. -/
def r500 : ApiResponse := ⟨false, 500, some "boom"⟩

/-- A table on floor 1 used to instantiate the canvas theorems. -/
def tA : CTable := ⟨1, "Meja 1", 1, "available", 4, some (0, 0, 100, 50), some 0⟩

/-- A drag interaction on `tA` in progress. -/
def stDragging : CanvasState :=
  ⟨some tA, true, false, false, none,
   some ⟨10, 10, none, none, none, none, none⟩, false, none, [tA]⟩

/-- A rotate interaction on `tA` in progress (`dragStart` in the shape the
rotate branch of `handleCanvasMouseDown` stores). -/
def stRotating : CanvasState :=
  ⟨some tA, false, false, true, none,
   some ⟨50, -30, some 0, none, none, some 50, some 25⟩, false, none, [tA]⟩

/-- The table `tA` after the rotate branch ran with trivial trigonometric
inputs. -/
def tRotated : CTable := { tA with rotation := some (newRotationOf 0 0 0) }

/-! ## Helper lemmas -/

/-- The close branch of the reconciliation effect never touches the
connection entry of a floor that is still in the valid set. -/
theorem reconcileCloseFloor_conns_of_mem (st : WsManagerState) (vs : List Nat)
    (k fid : Nat) (hmem : vs.contains fid = true) :
    (reconcileCloseFloor st vs k).conns fid = st.conns fid := by
  have hmem' : fid ∈ vs := by simpa using hmem
  unfold reconcileCloseFloor
  by_cases hk : k ∈ vs
  · simp [hk]
  · have hne : fid ≠ k := fun h => hk (h ▸ hmem')
    simp [hk, upd, hne]

/-- Function `connectToFloor` is a strict no-op whenever the floor already
holds a socket in OPEN or CONNECTING state. -/
theorem connectToFloor_noop_of_active (s : WsManagerState) (fid : Nat)
    (vs : List Nat) (ws : Socket) (hconn : s.conns fid = some ws)
    (hstate : ws.readyState = ReadyState.opened ∨
              ws.readyState = ReadyState.connecting) :
    connectToFloor s fid vs = s := by
  have hb : isOpenOrConnecting (s.conns fid) = true := by
    rw [hconn]
    rcases hstate with h | h <;> simp [isOpenOrConnecting, h]
  unfold connectToFloor
  simp [hb]

/-- Function `connectToFloor` is a strict no-op once the floor's retry
counter has reached the attempt cap. -/
theorem connectToFloor_noop_of_exhausted (s : WsManagerState) (fid : Nat)
    (vs : List Nat)
    (h5 : WS_MAX_RECONNECT_ATTEMPTS ≤ (s.attempts fid).getD 0) :
    connectToFloor s fid vs = s := by
  unfold connectToFloor
  simp [h5]

/-- Handler `ws.onclose` leaves every other floor's bookkeeping alone. -/
theorem onClose_frame (st : WsManagerState) (fid : Nat) (cs : List Nat)
    (g : Nat) (hg : g ≠ fid) :
    (onClose st fid cs).conns g = st.conns g ∧
    (onClose st fid cs).timers g = st.timers g ∧
    (onClose st fid cs).attempts g = st.attempts g ∧
    (onClose st fid cs).connectingFlag g = st.connectingFlag g := by
  unfold onClose
  by_cases h1 : st.unmounted
  · simp [h1, upd, hg]
  · by_cases h2 : fid ∈ cs
    · by_cases h3 : (st.attempts fid).getD 0 + 1 < WS_MAX_RECONNECT_ATTEMPTS
      · simp [h1, h2, h3, upd, hg]
      · simp [h1, h2, h3, upd, hg]
    · simp [h1, h2, upd, hg]

/-! ## Claims -/

/-- C1: the reconnect delay for attempt `N`.  The `useWebSocket` hook
schedules exactly `min(base * 2^(N-1), cap)` with `base = 5000` and
`cap = 60000`, as the claim states; but the `RealtimeDetection` component —
the claim's second source — schedules `BASE_RECONNECT_DELAY * N` (linear,
uncapped), which diverges from the claimed formula at the third attempt:
the code waits 9000 ms where the formula (with its base 3000 and cap 60000)
demands 12000 ms, even though the source line carries the comment
`// Exponential backoff`. -/
theorem reconnect_delay_c1 :
    (∀ n, wsDelay n = specDelay 5000 60000 n) ∧
    rdDelay 1 = specDelay 3000 60000 1 ∧
    rdDelay 2 = specDelay 3000 60000 2 ∧
    rdDelay 3 = 9000 ∧
    specDelay 3000 60000 3 = 12000 ∧
    rdOnClose 2 = (3, some 9000) :=
  ⟨fun _ => rfl, by decide, by decide, by decide, by decide, by decide⟩

/-- C3: a floor removed from the valid set *is* reconnected.  Starting from
floors 1 and 2 both open (sockets created while the set was `[1, 2]`), the
reconciliation effect for the new set `[1]` closes floor 2's socket and
removes all its bookkeeping — but the socket's `onclose` handler then fires
with the valid set captured at connect time, which still contains 2, so it
schedules a reconnect timer (5000 ms), and when that timer fires a brand-new
socket (id 3) is opened for the removed floor 2.  The claim's "no further
reconnect attempt is ever made" is violated by the code. -/
theorem removed_floor_reconnects_c3 :
    stAfterRemove.conns 2 = none ∧
    stAfterRemove.attempts 2 = none ∧
    stAfterRemove.timers 2 = none ∧
    stAfterRemove.connectingFlag 2 = false ∧
    stAfterClose.timers 2 = some ⟨[1, 2], 5000⟩ ∧
    stAfterTimer.conns 2 = some ⟨3, ReadyState.connecting, [1, 2]⟩ ∧
    stAfterTimer.conns 1 = some sock1 := by
  refine ⟨rfl, rfl, rfl, rfl, rfl, rfl, rfl⟩

/-- C2: during reconciliation of the floor-id set, a floor that remains in
the set and holds a socket in OPEN or CONNECTING state is left untouched:
the close branch does not alter its connection entry, and the (staggered)
ensure/connect call for it is a strict no-op — the socket is neither closed
nor reopened and no duplicate is created. -/
theorem reconcile_untouched_c2 (st : WsManagerState) (validSet keys : List Nat)
    (fid : Nat) (ws : Socket)
    (hmem : validSet.contains fid = true)
    (hconn : st.conns fid = some ws)
    (hstate : ws.readyState = ReadyState.opened ∨
              ws.readyState = ReadyState.connecting) :
    (reconcileClose st validSet keys).conns fid = some ws ∧
    connectToFloor (reconcileClose st validSet keys) fid validSet =
      reconcileClose st validSet keys ∧
    staggerFire (reconcileClose st validSet keys) fid validSet =
      reconcileClose st validSet keys := by
  have hpres : ∀ ks : List Nat, ∀ s : WsManagerState, s.conns fid = some ws →
      (reconcileClose s validSet ks).conns fid = some ws := by
    intro ks
    induction ks with
    | nil => intro s hs; exact hs
    | cons k ks ih =>
      intro s hs
      show (reconcileClose (reconcileCloseFloor s validSet k) validSet ks).conns
          fid = some ws
      exact ih _ (by
        rw [reconcileCloseFloor_conns_of_mem _ _ _ _ hmem]
        exact hs)
  have h1 := hpres keys st hconn
  have h2 := connectToFloor_noop_of_active _ _ validSet _ h1 hstate
  refine ⟨h1, h2, ?_⟩
  unfold staggerFire
  split_ifs with hu
  · rfl
  · exact h2

/-- Witness for C2 at a concrete instance: floors `[1, 2]`, both open,
reconciling to the same set `[1, 2]` with keys `[1, 2]`. -/
theorem reconcile_untouched_c2_witness :
    ([1, 2].contains 1 = true) ∧
    stBoth.conns 1 = some sock1 ∧
    (sock1.readyState = ReadyState.opened ∨
     sock1.readyState = ReadyState.connecting) ∧
    ((reconcileClose stBoth [1, 2] [1, 2]).conns 1 = some sock1 ∧
     connectToFloor (reconcileClose stBoth [1, 2] [1, 2]) 1 [1, 2] =
       reconcileClose stBoth [1, 2] [1, 2] ∧
     staggerFire (reconcileClose stBoth [1, 2] [1, 2]) 1 [1, 2] =
       reconcileClose stBoth [1, 2] [1, 2]) :=
  ⟨by decide, by decide, Or.inl rfl,
   reconcile_untouched_c2 stBoth [1, 2] [1, 2] 1 sock1 (by decide) (by decide)
     (Or.inl rfl)⟩

/-- C4: once a floor's retry counter has reached the maximum (5), the
ensure/connect operation for it is a strict no-op (no new socket is ever
opened), a further close schedules no reconnect timer, and the close
handler leaves every other floor's connection, timer, counter and flag
untouched. -/
theorem terminal_failure_c4 (st : WsManagerState) (fid g : Nat)
    (cs vs : List Nat)
    (h5 : WS_MAX_RECONNECT_ATTEMPTS ≤ (st.attempts fid).getD 0)
    (hg : g ≠ fid) :
    connectToFloor st fid vs = st ∧
    (onClose st fid cs).timers = st.timers ∧
    (onClose st fid cs).conns g = st.conns g ∧
    (onClose st fid cs).attempts g = st.attempts g ∧
    (onClose st fid cs).connectingFlag g = st.connectingFlag g := by
  obtain ⟨f1, f2, f3, f4⟩ := onClose_frame st fid cs g hg
  refine ⟨connectToFloor_noop_of_exhausted st fid vs h5, ?_, f1, f3, f4⟩
  unfold onClose
  by_cases h1 : st.unmounted
  · simp [h1]
  · by_cases h2 : fid ∈ cs
    · have h3 : ¬ ((st.attempts fid).getD 0 + 1 < WS_MAX_RECONNECT_ATTEMPTS) := by
        unfold WS_MAX_RECONNECT_ATTEMPTS at h5 ⊢
        omega
      simp [h1, h2, h3]
    · simp [h1, h2]

/-- C5 counterexample: the message `\x7b"type":"connected"\x7d` carries no
`table_status`, yet the `useWebSocket` message handler forwards it to the
caller-supplied handler together with the floor id — so "forwarded iff it
contains a table_status array" fails on the code. -/
theorem forward_connected_c5_counterexample :
    wsOnMessage true connectedMsg 7 = [WsAction.forward connectedMsg 7] ∧
    connectedMsg.tableStatus = none := by
  exact ⟨rfl, rfl⟩

/-- C5 amended: in the `useWebSocket` hook every successfully parsed message
except `type:"ping"` is forwarded to the caller-supplied handler with the
floor id, regardless of `table_status`; only `RealtimeDetection`'s handler
gates its forward (to `onDetectionUpdate`) on the presence of `table_status`
— and there a message is forwarded exactly when it carries `table_status`,
is not of type connected/pong/ping, and has no error field. -/
theorem forwarding_c5_amended (msg : WsMessage) (fid : Nat) :
    (wsOnMessage true msg fid = [WsAction.forward msg fid] ↔
      msg.mtype ≠ some "ping") ∧
    (RdAction.forwardDetection msg ∈ rdOnMessage msg ↔
      (msg.mtype ≠ some "connected" ∧ msg.mtype ≠ some "pong" ∧
       msg.mtype ≠ some "ping" ∧ msg.merror = none ∧
       msg.tableStatus ≠ none)) := by
  constructor
  · by_cases h : msg.mtype = some "ping" <;> simp [wsOnMessage, h]
  · by_cases h1 : msg.mtype = some "connected"
    · simp [rdOnMessage, h1]
    · by_cases h2 : msg.mtype = some "pong"
      · simp [rdOnMessage, h1, h2]
      · by_cases h3 : msg.mtype = some "ping"
        · simp [rdOnMessage, h1, h2, h3]
        · cases hm : msg.merror with
          | some e =>
            simp [rdOnMessage, h1, h2, h3, hm]
          | none =>
            cases ht : msg.tableStatus with
            | some l =>
              simp [rdOnMessage, h1, h2, h3, hm, ht]
            | none =>
              simp only [rdOnMessage, h1, h2, h3, hm, ht, if_false,
                List.mem_append, List.append_nil]
              split_ifs <;> simp [h1, h2, h3, ht]

/-- C6 counterexample: `RealtimeDetection`'s message handler reacts to
`\x7b"type":"ping"\x7d` with no action at all — in particular it sends no
`\x7b"type":"pong"\x7d` back — so "exactly one pong is sent back on the same
socket" fails on that handler (the claim's second source). -/
theorem ping_no_pong_c6_counterexample :
    rdOnMessage pingMsg = [] ∧ pingMsg.mtype = some "ping" := by
  exact ⟨rfl, rfl⟩

/-- C6 amended: in the `useWebSocket` hook a ping received on an open socket
is answered with exactly one pong on the same socket, and a ping on a
non-open socket with none (the whole handler body sits in a `try`/`catch`,
so a failing send cannot crash it); `RealtimeDetection`'s handler logs the
heartbeat and sends no reply. -/
theorem ping_pong_c6_amended (msg : WsMessage) (fid : Nat)
    (h : msg.mtype = some "ping") :
    wsOnMessage true msg fid = [WsAction.sendPong] ∧
    wsOnMessage false msg fid = [] ∧
    rdOnMessage msg = [] := by
  refine ⟨by simp [wsOnMessage, h], by simp [wsOnMessage, h], ?_⟩
  have hne : msg.mtype ≠ some "connected" := by rw [h]; simp
  simp [rdOnMessage, hne, h]

/-- Witness for C6 (amended) at the concrete ping frame. -/
theorem ping_pong_c6_witness :
    pingMsg.mtype = some "ping" ∧
    (wsOnMessage true pingMsg 7 = [WsAction.sendPong] ∧
     wsOnMessage false pingMsg 7 = [] ∧
     rdOnMessage pingMsg = []) :=
  ⟨rfl, ping_pong_c6_amended pingMsg 7 rfl⟩

/-- C7: a successful health probe sets connected, resets the retry counter,
and invokes the registered callbacks — all of them, once each, in
registration order — exactly when the monitor was disconnected before the
probe; a successful probe while already connected invokes none; a failed
probe (or network error, whose catch branch is identical) clears connected
and increments the retry counter, invoking nothing. -/
theorem health_probe_c7 (st : BackendConnState) :
    checkConnection st true =
      ({ st with isConnected := true, retryCount := 0, wasConnected := true },
       if st.wasConnected then [] else st.callbacks) ∧
    checkConnection st false =
      ({ st with isConnected := false, wasConnected := false,
                 retryCount := st.retryCount + 1 }, []) := by
  constructor
  · unfold checkConnection
    by_cases h : st.wasConnected <;> simp [h]
  · rfl

/-- C8 counterexample: `floorsAPI.create` answers a failed response that
carries the server detail `"boom"` and status 500 with the fixed message
`"Failed to create floor"`, which is not the detail and contains no digit at
all — hence cannot include the status code. -/
theorem fixed_error_message_c8_counterexample :
    floorsCreateError r500 = some "Failed to create floor" ∧
    r500.detail = some "boom" ∧
    ("Failed to create floor" : String) ≠ "boom" ∧
    "Failed to create floor".toList.filter Char.isDigit = [] := by
  refine ⟨rfl, rfl, by decide, by decide⟩

/-- C8 amended: of the REST client's calls only `tablesAPI.create` raises
the server-provided detail when present and non-empty, falling back to a
generic message that carries the status code; the other calls (here
`floorsAPI.create`, `floorsAPI.delete`, `tablesAPI.update`) raise fixed
operation-specific messages that contain neither the detail nor the status
code. -/
theorem detail_error_message_c8_amended (r : ApiResponse) (d : String)
    (hok : r.ok = false) :
    (r.detail = some d → d ≠ "" → tablesCreateError r = some d) ∧
    (r.detail = none →
      tablesCreateError r =
        some ("Failed to create table (" ++ toString r.status ++ ")")) ∧
    floorsCreateError r = some "Failed to create floor" ∧
    floorsDeleteError r = some "Failed to delete floor" ∧
    tablesUpdateError r = some "Failed to update table" := by
  refine ⟨?_, ?_, ?_, ?_, ?_⟩
  · intro hd hne
    simp [tablesCreateError, hok, jsOrElse, hd, hne]
  · intro hd
    simp [tablesCreateError, hok, jsOrElse, hd]
  · simp [floorsCreateError, hok]
  · simp [floorsDeleteError, hok]
  · simp [tablesUpdateError, hok]

/-- Witness for C8 (amended) at the concrete failed response `r500`. -/
theorem detail_error_message_c8_witness :
    r500.ok = false ∧
    ((r500.detail = some "boom" → "boom" ≠ "" →
        tablesCreateError r500 = some "boom") ∧
     (r500.detail = none →
        tablesCreateError r500 =
          some ("Failed to create table (" ++ toString r500.status ++ ")")) ∧
     floorsCreateError r500 = some "Failed to create floor" ∧
     floorsDeleteError r500 = some "Failed to delete floor" ∧
     tablesUpdateError r500 = some "Failed to update table") :=
  ⟨rfl, detail_error_message_c8_amended r500 "boom" rfl⟩

/-- Loop `normUp` never returns a negative value when its loop constant is
positive. -/
theorem normUp_nonneg (p : Rat) (hp : 0 < p) : ∀ (r : Rat), 0 ≤ normUp p r := by
  have H : ∀ (n : Nat) (r : Rat), (⌈-r / p⌉).toNat ≤ n → 0 ≤ normUp p r := by
    intro n
    induction n with
    | zero =>
      intro r hn
      rw [normUp]
      split_ifs with h
      · exfalso
        have hpos : 0 < ⌈-r / p⌉ := Int.ceil_pos.mpr (div_pos (neg_pos.mpr h.2) hp)
        omega
      · push_neg at h
        exact h hp
    | succ n ih =>
      intro r hn
      rw [normUp]
      split_ifs with h
      · apply ih
        have hkey : -(r + p) / p = -r / p - 1 := by
          field_simp
          ring
        have hpos : 0 < ⌈-r / p⌉ := Int.ceil_pos.mpr (div_pos (neg_pos.mpr h.2) hp)
        rw [hkey, Int.ceil_sub_one]
        omega
      · push_neg at h
        exact h hp
  exact fun r => H (⌈-r / p⌉).toNat r le_rfl

/-- Loop `normDown` maps a non-negative input into `[0, p)` when its loop
constant `p` is positive. -/
theorem normDown_bounds (p : Rat) (hp : 0 < p) : ∀ (r : Rat), 0 ≤ r →
    0 ≤ normDown p r ∧ normDown p r < p := by
  have H : ∀ (n : Nat) (r : Rat), 0 ≤ r → (⌊r / p⌋).toNat ≤ n →
      0 ≤ normDown p r ∧ normDown p r < p := by
    intro n
    induction n with
    | zero =>
      intro r hr hn
      rw [normDown]
      split_ifs with h
      · exfalso
        have h1 : ((1 : Int) : Rat) ≤ r / p := by
          exact_mod_cast (one_le_div hp).mpr h.2
        have hpos : (1 : Int) ≤ ⌊r / p⌋ := Int.le_floor.mpr h1
        omega
      · push_neg at h
        exact ⟨hr, h hp⟩
    | succ n ih =>
      intro r hr hn
      rw [normDown]
      split_ifs with h
      · refine ih (r - p) (by linarith [h.2]) ?_
        have hkey : (r - p) / p = r / p - 1 := by
          field_simp
        have h1 : ((1 : Int) : Rat) ≤ r / p := by
          exact_mod_cast (one_le_div hp).mpr h.2
        have hpos : (1 : Int) ≤ ⌊r / p⌋ := Int.le_floor.mpr h1
        rw [hkey, Int.floor_sub_one]
        omega
      · push_neg at h
        exact ⟨hr, h hp⟩
  exact fun r hr => H (⌊r / p⌋).toNat r hr le_rfl

/-- Every value produced by the rotating branch lies in `[0, 2π)`. -/
theorem newRotationOf_bounds (o a s : Rat) :
    0 ≤ newRotationOf o a s ∧ newRotationOf o a s < jsTwoPi := by
  have hp : (0 : Rat) < jsTwoPi := by norm_num [jsTwoPi]
  unfold newRotationOf normalizeRotation
  exact normDown_bounds jsTwoPi hp _ (normUp_nonneg jsTwoPi hp _)

/-- Handler `handleCanvasMouseMove` returns an empty persistence-effect
list on every path. -/
theorem mousemove_no_persist (jsAtan2 : Rat → Rat → Rat)
    (jsCos jsSin : Rat → Rat) (ff : FilterFloor) (cp : Bool)
    (st : CanvasState) (x y : Rat) :
    (handleCanvasMouseMove jsAtan2 jsCos jsSin ff cp st x y).2 = [] := by
  unfold handleCanvasMouseMove
  repeat' split <;> try rfl
  all_goals dsimp only
  all_goals repeat' split <;> try rfl

/-- The drawing step of mouse-up emits no table update and leaves the
interaction flags, selection and table list unchanged. -/
theorem mouseUpDrawStep_frame (ff : FilterFloor) (st : CanvasState) :
    countUpdates (mouseUpDrawStep ff st).2 = 0 ∧
    (mouseUpDrawStep ff st).1.isDragging = st.isDragging ∧
    (mouseUpDrawStep ff st).1.isResizing = st.isResizing ∧
    (mouseUpDrawStep ff st).1.isRotating = st.isRotating ∧
    (mouseUpDrawStep ff st).1.selectedTable = st.selectedTable ∧
    (mouseUpDrawStep ff st).1.localTables = st.localTables := by
  unfold mouseUpDrawStep
  repeat' split
  all_goals dsimp only
  all_goals repeat' split
  all_goals exact ⟨rfl, rfl, rfl, rfl, rfl, rfl⟩

/-- Counting update effects distributes over concatenation. -/
theorem countUpdates_append (a b : List CanvasEffect) :
    countUpdates (a ++ b) = countUpdates a + countUpdates b := by
  simp [countUpdates, List.filter_append]

/-- The persist step of mouse-up, when a drag/resize/rotate interaction is
active with a selected table found in `localTables`, stores the found entry
as the selection and emits exactly the one `updateTable` effect. -/
theorem mouseUpPersistStep_eq (st1 : CanvasState) (sel u : CTable)
    (hint : st1.isDragging = true ∨ st1.isResizing = true ∨
            st1.isRotating = true)
    (hsel : st1.selectedTable = some sel)
    (hfind : st1.localTables.find? (fun t => t.id = sel.id) = some u) :
    mouseUpPersistStep st1 =
      ({ st1 with selectedTable := some u },
       [CanvasEffect.updateTable sel.id u.coords u.rotation]) := by
  unfold mouseUpPersistStep
  have hcond : (st1.isDragging ∨ st1.isResizing ∨ st1.isRotating) ∧
      st1.selectedTable.isSome := by
    refine ⟨?_, by rw [hsel]; rfl⟩
    rcases hint with h | h | h
    · exact Or.inl h
    · exact Or.inr (Or.inl h)
    · exact Or.inr (Or.inr h)
  rw [if_pos hcond]
  simp [hsel, hfind]

/-- C9: a drag, resize or rotate interaction persists through the REST
update exactly once, at pointer-up — `handleCanvasMouseUp` emits exactly
one `updateTable` effect (carrying the edited table's final coords and
rotation), and `handleCanvasMouseMove` emits no persistence effect on any
path, so intermediate pointer-move frames change only local state. -/
theorem persist_on_mouseup_c9 (jsAtan2 : Rat → Rat → Rat)
    (jsCos jsSin : Rat → Rat) (ff : FilterFloor) (cp : Bool)
    (st : CanvasState) (x y : Rat) (sel u : CTable)
    (hint : st.isDragging = true ∨ st.isResizing = true ∨
            st.isRotating = true)
    (hsel : st.selectedTable = some sel)
    (hfind : st.localTables.find? (fun t => t.id = sel.id) = some u) :
    (handleCanvasMouseMove jsAtan2 jsCos jsSin ff cp st x y).2 = [] ∧
    countUpdates (handleCanvasMouseUp ff st).2 = 1 ∧
    CanvasEffect.updateTable sel.id u.coords u.rotation ∈
      (handleCanvasMouseUp ff st).2 := by
  obtain ⟨h0, h1, h2, h3, h4, h5⟩ := mouseUpDrawStep_frame ff st
  have hint1 : (mouseUpDrawStep ff st).1.isDragging = true ∨
      (mouseUpDrawStep ff st).1.isResizing = true ∨
      (mouseUpDrawStep ff st).1.isRotating = true := by
    rw [h1, h2, h3]; exact hint
  have hp := mouseUpPersistStep_eq (mouseUpDrawStep ff st).1 sel u hint1
    (by rw [h4]; exact hsel) (by rw [h5]; exact hfind)
  refine ⟨mousemove_no_persist jsAtan2 jsCos jsSin ff cp st x y, ?_, ?_⟩
  · show countUpdates ((mouseUpDrawStep ff st).2 ++
      (mouseUpPersistStep (mouseUpDrawStep ff st).1).2) = 1
    rw [hp, countUpdates_append, h0]
    rfl
  · show CanvasEffect.updateTable sel.id u.coords u.rotation ∈
      (mouseUpDrawStep ff st).2 ++
        (mouseUpPersistStep (mouseUpDrawStep ff st).1).2
    rw [hp]
    exact List.mem_append_right _ (List.mem_singleton.mpr rfl)

/-- Witness for C9 at a concrete drag interaction on table `tA`. -/
theorem persist_on_mouseup_c9_witness :
    (stDragging.isDragging = true ∨ stDragging.isResizing = true ∨
     stDragging.isRotating = true) ∧
    stDragging.selectedTable = some tA ∧
    stDragging.localTables.find? (fun t => t.id = tA.id) = some tA ∧
    ((handleCanvasMouseMove (fun _ _ => 0) (fun _ => 1) (fun _ => 0)
        (FilterFloor.lvl 1) true stDragging 5 5).2 = [] ∧
     countUpdates (handleCanvasMouseUp (FilterFloor.lvl 1) stDragging).2 = 1 ∧
     CanvasEffect.updateTable tA.id tA.coords tA.rotation ∈
       (handleCanvasMouseUp (FilterFloor.lvl 1) stDragging).2) :=
  ⟨Or.inl rfl, rfl, rfl,
   persist_on_mouseup_c9 (fun _ _ => 0) (fun _ => 1) (fun _ => 0)
     (FilterFloor.lvl 1) true stDragging 5 5 tA tA (Or.inl rfl) rfl rfl⟩

/-- C10: whenever the rotating branch of `handleCanvasMouseMove` runs, every
table of the resulting `localTables` is either untouched (still a member of
the previous list) or carries a stored rotation in the half-open interval
`[0, 2π)` — the handler adds the angular delta between the current and
starting pointer angles to the original rotation and then repeatedly adds
or subtracts `2π` until the value is within that range. -/
theorem rotation_normalized_c10 (jsAtan2 : Rat → Rat → Rat)
    (jsCos jsSin : Rat → Rat) (ff : FilterFloor) (cp : Bool)
    (st : CanvasState) (x y : Rat) (t : CTable)
    (hrotc : rotCond st = true)
    (ht : t ∈ (handleCanvasMouseMove jsAtan2 jsCos jsSin ff cp st x
        y).1.localTables) :
    t ∈ st.localTables ∨ ∃ r, t.rotation = some r ∧ 0 ≤ r ∧ r < jsTwoPi := by
  unfold handleCanvasMouseMove at ht
  by_cases hff : ff = FilterFloor.all
  · rw [if_pos hff] at ht
    exact Or.inl ht
  · rw [if_neg hff] at ht
    by_cases hcp : cp = true
    · have hncp : ¬ ¬ (cp = true) := not_not_intro hcp
      rw [if_neg hncp, if_pos hrotc] at ht
      have hparts : (st.isRotating = true ∧ st.selectedTable.isSome = true) ∧
          st.dragStart.isSome = true := by
        simpa [rotCond, Bool.and_eq_true] using hrotc
      obtain ⟨sel, hsome⟩ := Option.isSome_iff_exists.mp hparts.1.2
      obtain ⟨ds, hds⟩ := Option.isSome_iff_exists.mp hparts.2
      rw [hsome, hds] at ht
      simp only [List.mem_map] at ht
      obtain ⟨a, ha, rfl⟩ := ht
      by_cases hid : a.id = sel.id
      · right
        simp only [if_pos hid]
        exact ⟨_, rfl, (newRotationOf_bounds _ _ _).1,
          (newRotationOf_bounds _ _ _).2⟩
      · left
        simpa [hid] using ha
    · rw [if_pos hcp] at ht
      exact Or.inl ht

/-- Witness for C10 at a concrete rotate interaction on table `tA` with
trivial trigonometric inputs. -/
theorem rotation_normalized_c10_witness :
    rotCond stRotating = true ∧
    (tRotated ∈ stRotating.localTables ∨
     ∃ r, tRotated.rotation = some r ∧ 0 ≤ r ∧ r < jsTwoPi) :=
  ⟨rfl,
   rotation_normalized_c10 (fun _ _ => 0) (fun _ => 1) (fun _ => 0)
     (FilterFloor.lvl 1) true stRotating 60 25 tRotated rfl
     (by
       have h : (handleCanvasMouseMove (fun _ _ => 0) (fun _ => 1)
           (fun _ => 0) (FilterFloor.lvl 1) true stRotating 60
           25).1.localTables = [tRotated] := rfl
       rw [h]
       exact List.mem_singleton.mpr rfl)⟩

/-- Witness for C4 at a concrete instance: floor 2 exhausted (counter 5),
floor 1 open. -/
theorem terminal_failure_c4_witness :
    (WS_MAX_RECONNECT_ATTEMPTS ≤ (stExhausted.attempts 2).getD 0) ∧
    (1 ≠ 2) ∧
    (connectToFloor stExhausted 2 [1, 2] = stExhausted ∧
     (onClose stExhausted 2 [1, 2]).timers = stExhausted.timers ∧
     (onClose stExhausted 2 [1, 2]).conns 1 = stExhausted.conns 1 ∧
     (onClose stExhausted 2 [1, 2]).attempts 1 = stExhausted.attempts 1 ∧
     (onClose stExhausted 2 [1, 2]).connectingFlag 1 =
       stExhausted.connectingFlag 1) :=
  ⟨by decide, by decide,
   terminal_failure_c4 stExhausted 2 1 [1, 2] [1, 2] (by decide) (by decide)⟩

end FreeSpot
